import Mathlib

set_option maxHeartbeats 1000000

namespace ArbitrageBot

/-! Shallow embedding of the opportunity-detection and execution-coordination
core of the ArbitrageBot repository.  Prices, amounts and timestamps are
modelled as rationals; the mutable analyzer and executor singletons become
explicit state records, and external collaborator calls (fee oracle, balance
provider, liquidity probe, randomness) become explicit parameters. -/

/-- A per-venue price sample as assembled inside analyzeTokenArbitrage:
venue name, price, and sample timestamp in milliseconds. -/
structure DexPrice where
  dex : String
  price : ℚ
  timestamp : ℚ
deriving Repr, DecidableEq

/-- Raw price data per venue as read from the price-feed cache. -/
structure PriceData where
  price : ℚ
  source : String
  timestamp : ℚ
deriving Repr, DecidableEq

/-- Analyzer parameters drawn from ARBITRAGE_CONFIG. -/
structure AnalyzerConfig where
  minProfitPercentage : ℚ
  maxTransactionAmount : ℚ
  slippageTolerance : ℚ
deriving Repr, DecidableEq

/-- The opportunity value object constructed by calculateArbitrageOpportunity.
The gasCost field stands for the totalGasCost component of the gasCosts
object. -/
structure Opportunity where
  id : String
  network : String
  token : String
  fromDex : String
  toDex : String
  buyPrice : ℚ
  sellPrice : ℚ
  priceDifference : ℚ
  profitPercentage : ℚ
  grossProfitPercentage : ℚ
  optimalAmount : ℚ
  estimatedProfit : ℚ
  grossProfit : ℚ
  gasCost : ℚ
  slippageCost : ℚ
  timestamp : ℚ
  confidence : ℚ
deriving Repr, DecidableEq

/-- calculateOptimalTradeSize from the analyzer source: trade size scales with
the profit ratio, up to a 2x factor over the 0.05 ETH base, capped by the
configured maximum transaction amount. -/
def calculateOptimalTradeSize (cfg : AnalyzerConfig) (buyPrice sellPrice : ℚ) : ℚ :=
  let priceDifference := sellPrice - buyPrice
  let profitRate := priceDifference / buyPrice
  let baseAmount : ℚ := 5 / 100
  let scaleFactor := min (profitRate * 10) 2
  min (baseAmount * scaleFactor) cfg.maxTransactionAmount

/-- The trusted-venue allow-list hardcoded in calculateConfidenceScore. -/
def reliableDexes : List String := ["uniswap", "sushiswap", "pancakeswap"]

/-- calculateConfidenceScore from the analyzer source: start at 100, subtract
an age penalty of at most 50 per side for samples older than 30 s, add a flat
10-point bonus per trusted venue, and clamp the result between 0 and 100. -/
def calculateConfidenceScore (now : ℚ) (buyDex sellDex : DexPrice) : ℚ :=
  let score0 : ℚ := 100
  let maxAge : ℚ := 30000
  let buyAge := now - buyDex.timestamp
  let sellAge := now - sellDex.timestamp
  let score1 := if buyAge > maxAge then score0 - min 50 ((buyAge - maxAge) / 1000) else score0
  let score2 := if sellAge > maxAge then score1 - min 50 ((sellAge - maxAge) / 1000) else score1
  let score3 := if reliableDexes.contains buyDex.dex then score2 + 10 else score2
  let score4 := if reliableDexes.contains sellDex.dex then score3 + 10 else score3
  max 0 (min 100 score4)

/-- Modelled from the spec wording for the confidence computation: start at
100; for each side whose sample age exceeds the freshness threshold subtract
min 50 ((age - threshold) / 1000) points; add a flat 10-point bonus per side
drawn from the allow-list; clamp the total to the range from 0 to 100.
Parameterised over the allow-list and the freshness threshold. -/
def confidenceScoreSpec (allowList : List String) (threshold : ℚ) (now : ℚ)
    (buyDex sellDex : DexPrice) : ℚ :=
  let sidePenalty : DexPrice → ℚ := fun d =>
    let age := now - d.timestamp
    if age > threshold then min 50 ((age - threshold) / 1000) else 0
  let sideBonus : DexPrice → ℚ := fun d => if allowList.contains d.dex then 10 else 0
  let raw := 100 - sidePenalty buyDex - sidePenalty sellDex + sideBonus buyDex + sideBonus sellDex
  max 0 (min 100 raw)

/-- calculateArbitrageOpportunity from the analyzer source.  The totalGasCost
field of the estimateGasCosts result is passed in as gasCost, and the wall
clock is passed in as now. -/
def calculateArbitrageOpportunity (cfg : AnalyzerConfig) (now : ℚ)
    (networkName tokenSymbol : String) (gasCost : ℚ)
    (buyDex sellDex : DexPrice) : Opportunity :=
  let priceDifference := sellDex.price - buyDex.price
  let profitPercentage := priceDifference / buyDex.price * 100
  let optimalAmount :=
    min cfg.maxTransactionAmount (calculateOptimalTradeSize cfg buyDex.price sellDex.price)
  let grossProfit := optimalAmount * priceDifference
  let slippageCost := grossProfit * (cfg.slippageTolerance / 100)
  let netProfit := grossProfit - gasCost - slippageCost
  let netProfitPercentage := netProfit / (optimalAmount * buyDex.price) * 100
  { id := networkName ++ "-" ++ tokenSymbol ++ "-" ++ buyDex.dex ++ "-" ++ sellDex.dex
      ++ "-" ++ toString now
    network := networkName
    token := tokenSymbol
    fromDex := buyDex.dex
    toDex := sellDex.dex
    buyPrice := buyDex.price
    sellPrice := sellDex.price
    priceDifference := priceDifference
    profitPercentage := netProfitPercentage
    grossProfitPercentage := profitPercentage
    optimalAmount := optimalAmount
    estimatedProfit := netProfit
    grossProfit := grossProfit
    gasCost := gasCost
    slippageCost := slippageCost
    timestamp := now
    confidence := calculateConfidenceScore now buyDex sellDex }

/-- The profit block of calculateArbitrageOpportunity for a given trade size:
gross profit, slippage cost, net profit and net profit percentage, in that
order. -/
def profitBreakdown (slippageTolerance buyPrice sellPrice optimalAmount gasCost : ℚ) :
    ℚ × ℚ × ℚ × ℚ :=
  let priceDifference := sellPrice - buyPrice
  let grossProfit := optimalAmount * priceDifference
  let slippageCost := grossProfit * (slippageTolerance / 100)
  let netProfit := grossProfit - gasCost - slippageCost
  let netProfitPercentage := netProfit / (optimalAmount * buyPrice) * 100
  (grossProfit, slippageCost, netProfit, netProfitPercentage)

/-- One iteration of the venue-pair loop in analyzeTokenArbitrage: orient the
pair so that the cheaper venue is the buy side, build the candidate, and keep
it only when its net profit percentage reaches the configured minimum. -/
def pairOpportunity (cfg : AnalyzerConfig) (now : ℚ) (networkName tokenSymbol : String)
    (gasCost : ℚ) (dex1 dex2 : DexPrice) : Option Opportunity :=
  let buyDex := if dex1.price < dex2.price then dex1 else dex2
  let sellDex := if dex1.price < dex2.price then dex2 else dex1
  let opportunity := calculateArbitrageOpportunity cfg now networkName tokenSymbol gasCost buyDex sellDex
  if opportunity.profitPercentage ≥ cfg.minProfitPercentage then some opportunity else none

/-- The nested index loop of analyzeTokenArbitrage over all unordered venue
pairs, in source iteration order. -/
def pairLoop (cfg : AnalyzerConfig) (now : ℚ) (networkName tokenSymbol : String)
    (gasCost : ℚ) : List DexPrice → List Opportunity
  | [] => []
  | d :: ds =>
    ds.filterMap (fun d2 => pairOpportunity cfg now networkName tokenSymbol gasCost d d2)
      ++ pairLoop cfg now networkName tokenSymbol gasCost ds

/-- analyzeTokenArbitrage from the analyzer source: extract the qualifying
on-chain samples with positive price, require at least two venues, then
compare every pair. -/
def analyzeTokenArbitrage (cfg : AnalyzerConfig) (now : ℚ)
    (networkName tokenSymbol : String) (gasCost : ℚ)
    (prices : List (String × PriceData)) : List Opportunity :=
  let dexPrices := prices.filterMap (fun p =>
    if p.2.price > 0 ∧ p.2.source = "on-chain" then
      some ({ dex := p.1, price := p.2.price, timestamp := p.2.timestamp } : DexPrice)
    else none)
  if dexPrices.length < 2 then [] else
    pairLoop cfg now networkName tokenSymbol gasCost dexPrices

/-- Score used when ranking opportunities: profit percentage weighted by
confidence. -/
def oppScore (opp : Opportunity) : ℚ :=
  opp.profitPercentage * (opp.confidence / 100)

/-- filterAndRankOpportunities from the analyzer source: drop candidates below
the profit minimum, below 50 confidence, or older than one minute, then sort
descending by confidence-weighted profit (a stable sort, as in the runtime). -/
def filterAndRankOpportunities (cfg : AnalyzerConfig) (now : ℚ)
    (opportunities : List Opportunity) : List Opportunity :=
  (opportunities.filter (fun opp =>
      !decide (opp.profitPercentage < cfg.minProfitPercentage) &&
      !decide (opp.confidence < 50) &&
      !decide (now - opp.timestamp > 60000))).mergeSort
    (fun a b => decide (oppScore b ≤ oppScore a))

/-- The opportunity cache of the analyzer: a key-value map keyed by
opportunity id, kept as an insertion-ordered association list. -/
abbrev OpportunityStore := List (String × Opportunity)

/-- Map.set on the opportunity cache: replace the entry carrying the given id,
or append a fresh entry at the end. -/
def storeSet (store : OpportunityStore) (opp : Opportunity) : OpportunityStore :=
  if store.any (fun p => p.1 == opp.id) then
    store.map (fun p => if p.1 == opp.id then (opp.id, opp) else p)
  else store ++ [(opp.id, opp)]

/-- updateOpportunityCache from the analyzer source: delete every cached entry
whose timestamp lies strictly before the five-minute cutoff, then insert the
new batch. -/
def updateOpportunityCache (now : ℚ) (store : OpportunityStore)
    (opportunities : List Opportunity) : OpportunityStore :=
  let cutoffTime := now - 300000
  let pruned := store.filter (fun p => !decide (p.2.timestamp < cutoffTime))
  opportunities.foldl storeSet pruned

/-- getBestOpportunities from the analyzer source: keep cached opportunities
younger than one minute, sort descending by confidence-weighted profit, and
return the first limit entries. -/
def getBestOpportunities (now : ℚ) (store : OpportunityStore) (limit : ℕ) :
    List Opportunity :=
  (((store.map Prod.snd).filter (fun opp => decide (now - opp.timestamp < 60000))).mergeSort
    (fun a b => decide (oppScore b ≤ oppScore a))).take limit

/-- getOpportunityById from the analyzer source: a missing id yields no result;
an entry strictly older than one minute is deleted from the cache and reported
as missing; otherwise the entry is returned and the cache left untouched.  The
updated cache is returned alongside the result. -/
def getOpportunityById (now : ℚ) (store : OpportunityStore) (id : String) :
    Option Opportunity × OpportunityStore :=
  match store.lookup id with
  | none => (none, store)
  | some opp =>
    if now - opp.timestamp > 60000 then (none, store.filter (fun p => !(p.1 == id)))
    else (some opp, store)

/-! ## Execution coordinator (TransactionExecutor) -/

/-- Executor parameters drawn from ARBITRAGE_CONFIG and SECURITY_CONFIG. -/
structure ExecutorConfig where
  minProfitPercentage : ℚ
  maxGasPrice : ℚ
  dailyTransactionLimit : ℕ
  enableSimulation : Bool
  slippageTolerance : ℚ
deriving Repr, DecidableEq

/-- One entry of executionHistory.  The transaction result object produced by
executeArbitrageTransaction carries only a hash and a timestamp, so the
recorded success flag falls back to false in the source. -/
structure Execution where
  id : String
  timestamp : ℚ
  opportunity : Opportunity
  resultTxHash : String
  actualProfit : ℚ
  success : Bool
deriving Repr, DecidableEq

/-- The mutable executor state touched by executeArbitrage, together with the
daily-counter state the executor reaches through the analyzer singleton. -/
structure ExecutorState where
  isExecuting : Bool
  executionHistory : List Execution
  pendingCount : ℕ
  dailyTransactionCount : ℕ
  lastResetDate : String
deriving Repr, DecidableEq

/-- External observations consumed during one executeArbitrage call: wall
clock, calendar day, blockchain security validation, live fee rate, liquidity
probe, native balance, the generated transaction hash, the confirmed gas used,
and the random draw behind the efficiency factor. -/
structure ExecEnv where
  now : ℚ
  today : String
  blockchainChecksOk : Bool
  currentGasPrice : ℚ
  liquiditySufficient : Bool
  nativeBalance : ℚ
  txHash : String
  confirmationGasUsed : ℕ
  efficiencyRand : ℚ
deriving Repr, DecidableEq

/-- canExecuteTransaction from the analyzer source: reset the daily counter on
a new calendar day, then compare the counter against the daily limit. -/
def canExecuteTransaction (cfg : ExecutorConfig) (today : String)
    (st : ExecutorState) : Bool × ExecutorState :=
  let st1 := if today ≠ st.lastResetDate then
      { st with dailyTransactionCount := 0, lastResetDate := today } else st
  (decide (st1.dailyTransactionCount < cfg.dailyTransactionLimit), st1)

/-- performSecurityChecks from the executor source, with the collaborator
calls (blockchain validation, fee query, liquidity probe) answered by the
environment.  Returns the pass flag, the failure reason, and the state after
a possible daily-counter reset. -/
def performSecurityChecks (cfg : ExecutorConfig) (env : ExecEnv)
    (st : ExecutorState) (opp : Opportunity) : Bool × String × ExecutorState :=
  if !env.blockchainChecksOk then
    (false, "Controlli sicurezza blockchain falliti", st)
  else
    let canExec := canExecuteTransaction cfg env.today st
    if !canExec.1 then
      (false, "Limite transazioni giornaliere raggiunto", canExec.2)
    else if env.now - opp.timestamp > 60000 then
      (false, "Opportunita troppo vecchia", canExec.2)
    else if opp.profitPercentage < cfg.minProfitPercentage then
      (false, "Profitto sotto soglia minima", canExec.2)
    else if env.currentGasPrice > cfg.maxGasPrice then
      (false, "Gas price troppo alto", canExec.2)
    else if !env.liquiditySufficient then
      (false, "Liquidita insufficiente sui DEX", canExec.2)
    else (true, "", canExec.2)

/-- Result of simulateSwap: the source computes a flat 0.3 percent venue fee
followed by the configured slippage, and cannot fail. -/
structure SwapSimulation where
  success : Bool
  outputAmount : ℚ
  gasEstimate : ℕ
deriving Repr, DecidableEq

/-- simulateSwap from the executor source. -/
def simulateSwap (cfg : ExecutorConfig) (amount : ℚ) : SwapSimulation :=
  let slippage := cfg.slippageTolerance / 100
  { success := true
    outputAmount := amount * (997 / 1000) * (1 - slippage)
    gasEstimate := 150000 }

/-- Result of simulateArbitrage. -/
structure ArbSimulation where
  success : Bool
  estimatedProfit : ℚ
  gasEstimate : ℕ
deriving Repr, DecidableEq

/-- simulateArbitrage from the executor source: the sell leg consumes the buy
leg output, and the simulated profit is the final output minus the input. -/
def simulateArbitrage (cfg : ExecutorConfig) (opp : Opportunity) : ArbSimulation :=
  let buySim := simulateSwap cfg opp.optimalAmount
  if !buySim.success then
    { success := false, estimatedProfit := 0, gasEstimate := 0 }
  else
    let sellSim := simulateSwap cfg buySim.outputAmount
    if !sellSim.success then
      { success := false, estimatedProfit := 0, gasEstimate := 0 }
    else
      { success := true
        estimatedProfit := sellSim.outputAmount - opp.optimalAmount
        gasEstimate := buySim.gasEstimate + sellSim.gasEstimate }

/-- calculateActualProfit from the executor source: the actual gas cost prices
the confirmed gas units at a flat 20 gwei, the efficiency factor is 0.9 plus
the random draw scaled by 0.05, and the resulting profit is floored at zero. -/
def calculateActualProfit (estimatedProfit : ℚ) (gasUsed : ℕ) (rand : ℚ) : ℚ :=
  let actualGasCost : ℚ := (gasUsed : ℚ) * (20 * 10 ^ 9) / 10 ^ 18
  let efficiency := 9 / 10 + rand * (5 / 100)
  max 0 (estimatedProfit * efficiency - actualGasCost)

/-- updateExecutionHistory from the executor source: append the entry, then
keep only the most recent 100 entries. -/
def updateExecutionHistory (history : List Execution) (entry : Execution) :
    List Execution :=
  let h := history ++ [entry]
  if h.length > 100 then h.drop (h.length - 100) else h

/-- The value executeArbitrage hands back to its caller: the null early return
when an execution is already in flight, a structured error object when any
stage fails, or a success object. -/
inductive ExecResult where
  | busy
  | failed (error : String)
  | succeeded (txHash : String) (actualProfit : ℚ) (gasUsed : ℕ)
deriving Repr, DecidableEq

/-- executeArbitrage from the executor source: the single-flight guard returns
the busy result before touching any state; otherwise the staged pipeline runs
inside try/catch, the history and daily counter are updated only after full
success, failures become structured error results, and the finally block
clears the busy flag on every path. -/
def executeArbitrage (cfg : ExecutorConfig) (env : ExecEnv) (st : ExecutorState)
    (opp : Opportunity) : ExecResult × ExecutorState :=
  if st.isExecuting then (.busy, st)
  else
    let st1 : ExecutorState := { st with isExecuting := true }
    let sec := performSecurityChecks cfg env st1 opp
    let st2 := sec.2.2
    if !sec.1 then
      (.failed ("Controllo sicurezza fallito: " ++ sec.2.1), { st2 with isExecuting := false })
    else if cfg.enableSimulation && !(simulateArbitrage cfg opp).success then
      (.failed "Simulazione fallita", { st2 with isExecuting := false })
    else if env.nativeBalance < opp.gasCost * 2 then
      (.failed "Bilancio ETH insufficiente per gas", { st2 with isExecuting := false })
    else
      let actualProfit :=
        calculateActualProfit opp.estimatedProfit env.confirmationGasUsed env.efficiencyRand
      let entry : Execution :=
        { id := "exec-" ++ toString env.now
          timestamp := env.now
          opportunity := opp
          resultTxHash := env.txHash
          actualProfit := actualProfit
          success := false }
      let st3 : ExecutorState := { st2 with
        executionHistory := updateExecutionHistory st2.executionHistory entry
        dailyTransactionCount := st2.dailyTransactionCount + 1
        isExecuting := false }
      (.succeeded env.txHash actualProfit env.confirmationGasUsed, st3)

/-- The record returned by getExecutionStats. -/
structure ExecutionStats where
  isExecuting : Bool
  totalExecutions : ℕ
  recentExecutions : ℕ
  successfulExecutions : ℕ
  successRate : ℚ
  totalProfit24h : ℚ
  averageProfit : ℚ
  pendingTransactions : ℕ
deriving Repr, DecidableEq

/-- getExecutionStats from the executor source: aggregate the history over a
24-hour window, guarding both divisions against empty denominators. -/
def getExecutionStats (now : ℚ) (st : ExecutorState) : ExecutionStats :=
  let recent := st.executionHistory.filter (fun e => decide (now - e.timestamp < 86400000))
  let successful := recent.filter (fun e => e.success)
  let totalProfit := (successful.map (fun e => e.actualProfit)).sum
  { isExecuting := st.isExecuting
    totalExecutions := st.executionHistory.length
    recentExecutions := recent.length
    successfulExecutions := successful.length
    successRate :=
      if recent.length > 0 then ((successful.length : ℚ) / (recent.length : ℚ)) * 100 else 0
    totalProfit24h := totalProfit
    averageProfit :=
      if successful.length > 0 then totalProfit / (successful.length : ℚ) else 0
    pendingTransactions := st.pendingCount }

/-! ## Concrete sample values used by witnesses and counterexamples -/

/-- Analyzer configuration at the documented defaults: 0.5 percent minimum
profit, 0.1 ETH maximum transaction, 1 percent slippage tolerance. -/
def sampleCfgA : AnalyzerConfig :=
  { minProfitPercentage := 1 / 2
    maxTransactionAmount := 1 / 10
    slippageTolerance := 1 }

/-- Executor configuration at the documented defaults. -/
def sampleCfgE : ExecutorConfig :=
  { minProfitPercentage := 1 / 2
    maxGasPrice := 50
    dailyTransactionLimit := 10
    enableSimulation := true
    slippageTolerance := 1 }

/-- A concrete opportunity created at time 0. -/
def sampleOpp : Opportunity :=
  { id := "o1"
    network := "polygon"
    token := "WETH"
    fromDex := "uniswap"
    toDex := "sushiswap"
    buyPrice := 2000
    sellPrice := 2050
    priceDifference := 50
    profitPercentage := 3
    grossProfitPercentage := 5 / 2
    optimalAmount := 1 / 10
    estimatedProfit := 247 / 50
    grossProfit := 5
    gasCost := 1 / 100
    slippageCost := 1 / 20
    timestamp := 0
    confidence := 85 }

/-- An environment in which every collaborator call succeeds. -/
def sampleEnvOk : ExecEnv :=
  { now := 1000
    today := "Mon Jan 01 2024"
    blockchainChecksOk := true
    currentGasPrice := 20
    liquiditySufficient := true
    nativeBalance := 1
    txHash := "0xabc"
    confirmationGasUsed := 250000
    efficiencyRand := 1 / 2 }

/-- An environment in which the blockchain security validation fails. -/
def sampleEnvFail : ExecEnv := { sampleEnvOk with blockchainChecksOk := false }

/-- An idle executor with empty history. -/
def sampleStateIdle : ExecutorState :=
  { isExecuting := false
    executionHistory := []
    pendingCount := 0
    dailyTransactionCount := 0
    lastResetDate := "Mon Jan 01 2024" }

/-- The same executor state with an execution in flight. -/
def sampleStateBusy : ExecutorState := { sampleStateIdle with isExecuting := true }

/-! ## C3: the concrete profitability scenario -/

/-- C3 counterexample: with buyPrice 2000, sellPrice 2050, optimalAmount 0.1,
gasCost 0.01 and slippage tolerance 1 percent, the code computes
netProfitPercentage = 2.47, which is nowhere near the 24.7 the claim
states. -/
theorem C3_profit_scenario_counterexample :
    (profitBreakdown 1 2000 2050 (1 / 10) (1 / 100)).2.2.2 = 247 / 100 ∧
    (247 : ℚ) / 100 + 20 < 247 / 10 := by
  constructor
  · norm_num [profitBreakdown]
  · norm_num

/-- C3 (amended): for buyPrice 2000, sellPrice 2050, optimalAmount 0.1,
gasCost 0.01 and slippage tolerance 1 percent, the profitability formulas of
calculateArbitrageOpportunity yield grossProfit 5, slippageCost 0.05,
netProfit 4.94 and netProfitPercentage 2.47; and the profit fields of every
constructed opportunity agree with that formula block evaluated at its own
trade size. -/
theorem C3_profit_scenario :
    profitBreakdown 1 2000 2050 (1 / 10) (1 / 100) = (5, 1 / 20, 247 / 50, 247 / 100) ∧
    ∀ (cfg : AnalyzerConfig) (now : ℚ) (net tok : String) (g : ℚ) (b s : DexPrice),
      ((calculateArbitrageOpportunity cfg now net tok g b s).grossProfit,
       (calculateArbitrageOpportunity cfg now net tok g b s).slippageCost,
       (calculateArbitrageOpportunity cfg now net tok g b s).estimatedProfit,
       (calculateArbitrageOpportunity cfg now net tok g b s).profitPercentage)
        = profitBreakdown cfg.slippageTolerance b.price s.price
            (calculateArbitrageOpportunity cfg now net tok g b s).optimalAmount g := by
  constructor
  · norm_num [profitBreakdown]
  · intro cfg now net tok g b s
    rfl

/-! ## C6: the confidence score -/

/-- C6: the code confidence score coincides with the reference computation of
the spec instantiated at the hardcoded trusted-venue list and the 30 s
freshness threshold; the reference computation stays between 0 and 100 for
every allow-list, threshold and pair of samples; every constructed
opportunity carries exactly that score; and a single side aged 45 s against
the 30 s threshold costs exactly 15 points. -/
theorem C6_confidence_score :
    (∀ (now : ℚ) (b s : DexPrice),
        calculateConfidenceScore now b s = confidenceScoreSpec reliableDexes 30000 now b s) ∧
    (∀ (allowList : List String) (threshold now : ℚ) (b s : DexPrice),
        0 ≤ confidenceScoreSpec allowList threshold now b s ∧
          confidenceScoreSpec allowList threshold now b s ≤ 100) ∧
    (∀ (cfg : AnalyzerConfig) (now : ℚ) (net tok : String) (g : ℚ) (b s : DexPrice),
        (calculateArbitrageOpportunity cfg now net tok g b s).confidence
          = calculateConfidenceScore now b s) ∧
    calculateConfidenceScore 45000 ⟨"dexa", 1, 0⟩ ⟨"dexb", 1, 45000⟩ = 85 := by
  refine ⟨?_, ?_, ?_, ?_⟩
  · intro now b s
    simp only [calculateConfidenceScore, confidenceScoreSpec]
    split_ifs <;> congr 1 <;> congr 1 <;> ring
  · intro allowList threshold now b s
    simp only [confidenceScoreSpec]
    exact ⟨le_max_left 0 _, max_le (by norm_num) (min_le_left _ _)⟩
  · intro cfg now net tok g b s
    rfl
  · simp [calculateConfidenceScore, reliableDexes, min_def, max_def]
    norm_num

/-! ## C7: settlement profit floored at zero -/

/-- C7: with the random draw in the unit interval, the efficiency factor of
calculateActualProfit lies in the range from 0.9 to 0.95, the function equals
the declared formula floored at zero, and the settled profit is therefore
never negative: a realized loss is unreachable. -/
theorem C7_actual_profit_nonneg (estimatedProfit : ℚ) (gasUsed : ℕ) (rand : ℚ)
    (h0 : 0 ≤ rand) (h1 : rand < 1) :
    (9 / 10 ≤ 9 / 10 + rand * (5 / 100) ∧ 9 / 10 + rand * (5 / 100) ≤ 95 / 100) ∧
    calculateActualProfit estimatedProfit gasUsed rand
      = max 0 (estimatedProfit * (9 / 10 + rand * (5 / 100))
          - (gasUsed : ℚ) * (20 * 10 ^ 9) / 10 ^ 18) ∧
    0 ≤ calculateActualProfit estimatedProfit gasUsed rand := by
  refine ⟨⟨?_, ?_⟩, rfl, ?_⟩
  · nlinarith
  · nlinarith
  · simp only [calculateActualProfit]
    exact le_max_left 0 _

/-- Witness for C7 at the concrete draw 1/2 with a 4.94 estimate and 250000
gas units. -/
theorem C7_actual_profit_nonneg_witness :
    ((9 : ℚ) / 10 ≤ 9 / 10 + (1 / 2) * (5 / 100) ∧
      (9 : ℚ) / 10 + (1 / 2) * (5 / 100) ≤ 95 / 100) ∧
    calculateActualProfit (247 / 50) 250000 (1 / 2)
      = max 0 ((247 / 50) * (9 / 10 + (1 / 2) * (5 / 100))
          - ((250000 : ℕ) : ℚ) * (20 * 10 ^ 9) / 10 ^ 18) ∧
    0 ≤ calculateActualProfit (247 / 50) 250000 (1 / 2) :=
  C7_actual_profit_nonneg (247 / 50) 250000 (1 / 2) (by norm_num) (by norm_num)

/-! ## C2: the single-flight busy path -/

/-- C2: a call arriving while an execution is in flight returns the busy
result and leaves the state — history, daily counter, pending map, flags —
exactly as it was. -/
theorem C2_busy_no_side_effects (cfg : ExecutorConfig) (env : ExecEnv)
    (st : ExecutorState) (opp : Opportunity) (h : st.isExecuting = true) :
    executeArbitrage cfg env st opp = (.busy, st) := by
  simp [executeArbitrage, h]

/-- Witness for C2 on a concrete busy executor. -/
theorem C2_busy_no_side_effects_witness :
    executeArbitrage sampleCfgE sampleEnvOk sampleStateBusy sampleOpp
      = (.busy, sampleStateBusy) :=
  C2_busy_no_side_effects sampleCfgE sampleEnvOk sampleStateBusy sampleOpp rfl

/-! ## C10: execution statistics -/

/-- C10 counterexample: two executor states with identical (empty) histories
produce different getExecutionStats records, because the isExecuting field
reports the busy flag, which is independent coordinator state rather than a
history aggregate. -/
theorem C10_stats_counterexample :
    sampleStateBusy.executionHistory = sampleStateIdle.executionHistory ∧
    getExecutionStats 0 sampleStateBusy ≠ getExecutionStats 0 sampleStateIdle := by
  refine ⟨rfl, ?_⟩
  intro h
  have := congrArg ExecutionStats.isExecuting h
  simp [getExecutionStats, sampleStateBusy, sampleStateIdle] at this

/-- C10 (amended): getExecutionStats is total over every history; with no
execution in the last 24 hours the success rate is 0 rather than a division
by zero, with no successful execution the average profit is 0, and the six
aggregate fields depend on the history alone — while isExecuting and
pendingTransactions report coordinator state outside the history. -/
theorem C10_stats_total (now : ℚ) (s1 s2 : ExecutorState)
    (hh : s1.executionHistory = s2.executionHistory) :
    ((getExecutionStats now s1).recentExecutions = 0 →
      (getExecutionStats now s1).successRate = 0) ∧
    ((getExecutionStats now s1).successfulExecutions = 0 →
      (getExecutionStats now s1).averageProfit = 0) ∧
    (getExecutionStats now s1).totalExecutions = (getExecutionStats now s2).totalExecutions ∧
    (getExecutionStats now s1).recentExecutions = (getExecutionStats now s2).recentExecutions ∧
    (getExecutionStats now s1).successfulExecutions
      = (getExecutionStats now s2).successfulExecutions ∧
    (getExecutionStats now s1).successRate = (getExecutionStats now s2).successRate ∧
    (getExecutionStats now s1).totalProfit24h = (getExecutionStats now s2).totalProfit24h ∧
    (getExecutionStats now s1).averageProfit = (getExecutionStats now s2).averageProfit := by
  refine ⟨?_, ?_, ?_, ?_, ?_, ?_, ?_, ?_⟩
  · intro h
    simp only [getExecutionStats] at h ⊢
    rw [h]
    norm_num
  · intro h
    simp only [getExecutionStats] at h ⊢
    rw [h]
    norm_num
  all_goals simp only [getExecutionStats, hh]

/-- Witness for C10 on the two concrete sample states. -/
theorem C10_stats_total_witness :
    ((getExecutionStats 0 sampleStateIdle).recentExecutions = 0 →
      (getExecutionStats 0 sampleStateIdle).successRate = 0) ∧
    ((getExecutionStats 0 sampleStateIdle).successfulExecutions = 0 →
      (getExecutionStats 0 sampleStateIdle).averageProfit = 0) ∧
    (getExecutionStats 0 sampleStateIdle).totalExecutions
      = (getExecutionStats 0 sampleStateBusy).totalExecutions ∧
    (getExecutionStats 0 sampleStateIdle).recentExecutions
      = (getExecutionStats 0 sampleStateBusy).recentExecutions ∧
    (getExecutionStats 0 sampleStateIdle).successfulExecutions
      = (getExecutionStats 0 sampleStateBusy).successfulExecutions ∧
    (getExecutionStats 0 sampleStateIdle).successRate
      = (getExecutionStats 0 sampleStateBusy).successRate ∧
    (getExecutionStats 0 sampleStateIdle).totalProfit24h
      = (getExecutionStats 0 sampleStateBusy).totalProfit24h ∧
    (getExecutionStats 0 sampleStateIdle).averageProfit
      = (getExecutionStats 0 sampleStateBusy).averageProfit :=
  C10_stats_total 0 sampleStateIdle sampleStateBusy rfl

/-! ## C1: one record per admitted attempt -/

/-- The security-check stage never touches the execution history. -/
theorem performSecurityChecks_history (cfg : ExecutorConfig) (env : ExecEnv)
    (st : ExecutorState) (opp : Opportunity) :
    (performSecurityChecks cfg env st opp).2.2.executionHistory = st.executionHistory := by
  simp only [performSecurityChecks, canExecuteTransaction]
  split_ifs <;> rfl

/-- The history update appends exactly one entry, up to the 100-entry cap. -/
theorem updateExecutionHistory_length (history : List Execution) (entry : Execution) :
    (updateExecutionHistory history entry).length = min (history.length + 1) 100 := by
  simp only [updateExecutionHistory]
  split_ifs with h
  · simp only [List.length_drop, List.length_append, List.length_singleton] at h ⊢
    omega
  · simp only [List.length_append, List.length_singleton] at h ⊢
    omega

/-- C1 (amended): an admitted call never reports busy; when the pipeline
succeeds exactly one ExecutionRecord is appended (subject to the 100-entry
FIFO cap); when any stage fails the call returns a structured failed result
and appends no record at all. -/
theorem C1_execution_record (cfg : ExecutorConfig) (env : ExecEnv)
    (st : ExecutorState) (opp : Opportunity) (h : st.isExecuting = false) :
    (∀ e, (executeArbitrage cfg env st opp).1 = .failed e →
      (executeArbitrage cfg env st opp).2.executionHistory = st.executionHistory) ∧
    (∀ tx profit gas, (executeArbitrage cfg env st opp).1 = .succeeded tx profit gas →
      (executeArbitrage cfg env st opp).2.executionHistory.length
        = min (st.executionHistory.length + 1) 100) ∧
    (executeArbitrage cfg env st opp).1 ≠ .busy := by
  have hsec := performSecurityChecks_history cfg env { st with isExecuting := true } opp
  simp only [executeArbitrage, h, Bool.false_eq_true, if_false]
  refine ⟨?_, ?_, ?_⟩
  · intro e he
    split_ifs at he ⊢
    all_goals simp_all [hsec]
  · intro tx profit gas he
    split_ifs at he ⊢
    all_goals simp_all [updateExecutionHistory_length, hsec]
  · split_ifs <;> simp

/-- C1 counterexample: an admitted execution whose security gate fails
returns a structured failure and appends nothing to the history, where the
claim demands exactly one record per admitted attempt. -/
theorem C1_execution_record_counterexample :
    (executeArbitrage sampleCfgE sampleEnvFail sampleStateIdle sampleOpp).1
      = .failed "Controllo sicurezza fallito: Controlli sicurezza blockchain falliti" ∧
    (executeArbitrage sampleCfgE sampleEnvFail sampleStateIdle sampleOpp).2.executionHistory.length
      = 0 :=
  ⟨rfl, rfl⟩

/-- Witness for C1 on a concrete fully successful execution. -/
theorem C1_execution_record_witness :
    (executeArbitrage sampleCfgE sampleEnvOk sampleStateIdle sampleOpp).2.executionHistory.length
      = min (sampleStateIdle.executionHistory.length + 1) 100 :=
  (C1_execution_record sampleCfgE sampleEnvOk sampleStateIdle sampleOpp rfl).2.1
    sampleEnvOk.txHash
    (calculateActualProfit sampleOpp.estimatedProfit sampleEnvOk.confirmationGasUsed
      sampleEnvOk.efficiencyRand)
    sampleEnvOk.confirmationGasUsed
    (by norm_num [executeArbitrage, performSecurityChecks, canExecuteTransaction,
      simulateArbitrage, simulateSwap, sampleCfgE, sampleEnvOk, sampleStateIdle, sampleOpp])

/-! ## C5: read-time staleness filtering -/

/-- C5 counterexample: at age exactly 60000 ms the strict comparison in
getOpportunityById keeps the entry, so byId still returns it (and deletes
nothing), where the claim demands NotFound plus removal for every age of at
least 60000 ms. -/
theorem C5_staleness_counterexample :
    getOpportunityById 60000 [("o1", sampleOpp)] "o1"
      = (some sampleOpp, [("o1", sampleOpp)]) := by
  simp [getOpportunityById, sampleOpp]

/-- C5 (amended): getBestOpportunities never returns an entry aged 60000 ms
or more; getOpportunityById deletes and reports NotFound exactly when the age
strictly exceeds 60000 ms, and returns entries aged at most 60000 ms
unmodified. -/
theorem C5_staleness (now : ℚ) (store : OpportunityStore) (limit : ℕ)
    (id : String) (opp : Opportunity) :
    (opp ∈ getBestOpportunities now store limit → now - opp.timestamp < 60000) ∧
    (store.lookup id = some opp → now - opp.timestamp > 60000 →
      getOpportunityById now store id
        = (none, store.filter (fun p => !(p.1 == id)))) ∧
    (store.lookup id = some opp → now - opp.timestamp ≤ 60000 →
      getOpportunityById now store id = (some opp, store)) := by
  refine ⟨?_, ?_, ?_⟩
  · intro h
    have h1 := List.mem_mergeSort.mp (List.mem_of_mem_take h)
    have h2 := List.mem_filter.mp h1
    exact of_decide_eq_true h2.2
  · intro h1 h2
    simp only [getOpportunityById, h1]
    rw [if_pos h2]
  · intro h1 h2
    simp only [getOpportunityById, h1]
    rw [if_neg (not_lt.mpr h2)]

/-- Witness for C5: a fresh entry is returned unmodified, and a strictly
stale entry is deleted. -/
theorem C5_staleness_witness :
    (getOpportunityById 1000 [("o1", sampleOpp)] "o1"
      = (some sampleOpp, [("o1", sampleOpp)])) ∧
    (getOpportunityById 70000 [("o1", sampleOpp)] "o1"
      = (none, List.filter (fun p => !(p.1 == "o1")) [("o1", sampleOpp)])) :=
  ⟨(C5_staleness 1000 [("o1", sampleOpp)] 10 "o1" sampleOpp).2.2 rfl (by norm_num [sampleOpp]),
   (C5_staleness 70000 [("o1", sampleOpp)] 10 "o1" sampleOpp).2.1 rfl (by norm_num [sampleOpp])⟩

/-! ## C9: five-minute store eviction -/

/-- Membership in the result of a Map.set step comes either from the inserted
entry or from the original store. -/
theorem mem_storeSet (s : OpportunityStore) (o : Opportunity) (p : String × Opportunity)
    (hp : p ∈ storeSet s o) : p = (o.id, o) ∨ p ∈ s := by
  simp only [storeSet] at hp
  split_ifs at hp with h
  · rcases List.mem_map.mp hp with ⟨q, hq, hqe⟩
    by_cases hq1 : (q.1 == o.id) = true
    · left
      rw [if_pos hq1] at hqe
      exact hqe.symm
    · right
      rw [if_neg hq1] at hqe
      exact hqe ▸ hq
  · rcases List.mem_append.mp hp with h1 | h1
    · exact Or.inr h1
    · exact Or.inl (List.mem_singleton.mp h1)

/-- A Map.set step keeps every entry whose key differs from the inserted
id. -/
theorem storeSet_mem_of_ne (s : OpportunityStore) (o : Opportunity)
    (p : String × Opportunity) (hp : p ∈ s) (hne : p.1 ≠ o.id) : p ∈ storeSet s o := by
  simp only [storeSet]
  split_ifs with h
  · exact List.mem_map.mpr ⟨p, hp, by simp [hne]⟩
  · exact List.mem_append_left _ hp

/-- A Map.set step makes the inserted entry present. -/
theorem storeSet_self (s : OpportunityStore) (o : Opportunity) :
    (o.id, o) ∈ storeSet s o := by
  simp only [storeSet]
  split_ifs with h
  · rcases List.any_eq_true.mp h with ⟨q, hq, hq1⟩
    exact List.mem_map.mpr ⟨q, hq, by simp [hq1]⟩
  · exact List.mem_append_right _ (List.mem_singleton.mpr rfl)

/-- Membership after folding Map.set over a batch comes from the batch or
from the initial store. -/
theorem mem_foldl_storeSet (batch : List Opportunity) (init : OpportunityStore)
    (p : String × Opportunity) (hp : p ∈ batch.foldl storeSet init) :
    p.2 ∈ batch ∨ p ∈ init := by
  induction batch generalizing init with
  | nil => exact Or.inr hp
  | cons o os ih =>
    rcases ih (storeSet init o) hp with h1 | h1
    · exact Or.inl (List.mem_cons_of_mem _ h1)
    · rcases mem_storeSet init o p h1 with h2 | h2
      · left
        rw [h2]
        exact List.mem_cons_self _ _
      · exact Or.inr h2

/-- Folding Map.set over a batch keeps every initial entry whose key matches
none of the batch ids. -/
theorem foldl_storeSet_mem_of_ne (batch : List Opportunity) (init : OpportunityStore)
    (p : String × Opportunity) (hp : p ∈ init)
    (hne : ∀ o ∈ batch, p.1 ≠ o.id) : p ∈ batch.foldl storeSet init := by
  induction batch generalizing init with
  | nil => exact hp
  | cons o os ih =>
    exact ih (storeSet init o)
      (storeSet_mem_of_ne init o p hp (hne o (List.mem_cons_self _ _)))
      (fun o2 ho2 => hne o2 (List.mem_cons_of_mem _ ho2))

/-- With pairwise distinct ids, folding Map.set over a batch makes every
batch entry present. -/
theorem foldl_storeSet_insert (batch : List Opportunity) (init : OpportunityStore)
    (hnodup : (batch.map Opportunity.id).Nodup) :
    ∀ o ∈ batch, (o.id, o) ∈ batch.foldl storeSet init := by
  induction batch generalizing init with
  | nil => intro o ho; cases ho
  | cons b bs ih =>
    intro o ho
    have hnd : (∀ x ∈ bs, ¬x.id = b.id) ∧ (List.map Opportunity.id bs).Nodup := by
      simpa using hnodup
    rcases List.mem_cons.mp ho with rfl | ho2
    · apply foldl_storeSet_mem_of_ne bs _ _ (storeSet_self init o)
      intro o2 ho2
      intro hcontra
      exact hnd.1 o2 ho2 hcontra.symm
    · exact ih (storeSet init b) hnd.2 o ho2

/-- C9 (amended): a store-maintenance pass removes exactly the entries whose
age strictly exceeds 300000 ms — so every surviving entry is either from the
new batch or a kept entry aged at most 300000 ms, every kept-age entry not
overwritten by the batch survives, and (for a batch with distinct ids) every
batch entry is inserted. -/
theorem C9_store_eviction (now : ℚ) (store : OpportunityStore)
    (batch : List Opportunity) (hnodup : (batch.map Opportunity.id).Nodup) :
    (∀ p ∈ updateOpportunityCache now store batch,
      p.2 ∈ batch ∨ (p ∈ store ∧ ¬(p.2.timestamp < now - 300000))) ∧
    (∀ p ∈ store, ¬(p.2.timestamp < now - 300000) → (∀ o ∈ batch, p.1 ≠ o.id) →
      p ∈ updateOpportunityCache now store batch) ∧
    (∀ o ∈ batch, (o.id, o) ∈ updateOpportunityCache now store batch) := by
  refine ⟨?_, ?_, ?_⟩
  · intro p hp
    rcases mem_foldl_storeSet batch _ p hp with h1 | h1
    · exact Or.inl h1
    · have h2 := List.mem_filter.mp h1
      refine Or.inr ⟨h2.1, ?_⟩
      have := h2.2
      simpa using this
  · intro p hp hage hne
    apply foldl_storeSet_mem_of_ne batch _ p _ hne
    exact List.mem_filter.mpr ⟨hp, by simpa using hage⟩
  · exact foldl_storeSet_insert batch _ hnodup

/-- C9 counterexample: an entry aged exactly 300000 ms at the maintenance
pass survives it, because the source removes only entries with timestamp
strictly below the cutoff, where the claim demands removal at age of at
least 300000 ms. -/
theorem C9_store_eviction_counterexample :
    updateOpportunityCache 300000 [("o1", sampleOpp)] [] = [("o1", sampleOpp)] := by
  simp [updateOpportunityCache, sampleOpp]

/-- Witness for C9: a concrete pass over an empty store inserts the batch
entry. -/
theorem C9_store_eviction_witness :
    ((sampleOpp.id, sampleOpp) ∈ updateOpportunityCache 1000 [] [sampleOpp]) :=
  (C9_store_eviction 1000 [] [sampleOpp] (by simp)).2.2 sampleOpp
    (List.mem_singleton.mpr rfl)

/-! ## C4: strictly positive spread -/

/-- With equal venue prices the candidate degenerates: the trade size scales
to zero, and the net profit percentage — a division by a zero notional — is
the zero of the rational field. -/
theorem calcOpp_pct_of_eq (cfg : AnalyzerConfig) (now : ℚ) (net tok : String)
    (g : ℚ) (b s : DexPrice) (h : s.price = b.price)
    (hmax : 0 ≤ cfg.maxTransactionAmount) :
    (calculateArbitrageOpportunity cfg now net tok g b s).profitPercentage = 0 := by
  have h1 : min cfg.maxTransactionAmount (calculateOptimalTradeSize cfg b.price s.price) = 0 := by
    simp only [calculateOptimalTradeSize, h, sub_self, zero_div, zero_mul]
    rw [show min (0 : ℚ) 2 = 0 from by norm_num [min_def], mul_zero,
      min_eq_left hmax, min_eq_right hmax]
  simp only [calculateArbitrageOpportunity]
  rw [h1]
  simp

/-- A venue pair with equal prices never yields a candidate once the minimum
profit percentage is positive. -/
theorem pairOpportunity_eq_none (cfg : AnalyzerConfig) (now : ℚ) (net tok : String)
    (g : ℚ) (d1 d2 : DexPrice) (heq : d1.price = d2.price)
    (hmin : 0 < cfg.minProfitPercentage) (hmax : 0 ≤ cfg.maxTransactionAmount) :
    pairOpportunity cfg now net tok g d1 d2 = none := by
  have hlt : ¬(d1.price < d2.price) := heq ▸ lt_irrefl _
  simp only [pairOpportunity, if_neg hlt]
  rw [calcOpp_pct_of_eq cfg now net tok g d2 d1 heq hmax]
  rw [if_neg (not_le.mpr hmin)]

/-- When the first venue is strictly cheaper, the emitted candidate buys
there and sells at the second. -/
theorem pairOpportunity_some_fields (cfg : AnalyzerConfig) (now : ℚ)
    (net tok : String) (g : ℚ) (d1 d2 : DexPrice) (opp : Opportunity)
    (hlt : d1.price < d2.price)
    (hs : pairOpportunity cfg now net tok g d1 d2 = some opp) :
    opp.buyPrice = d1.price ∧ opp.sellPrice = d2.price := by
  simp only [pairOpportunity, if_pos hlt] at hs
  split_ifs at hs
  · cases hs
    exact ⟨rfl, rfl⟩

/-- Every candidate a pair emits has a strictly positive spread. -/
theorem pairOpportunity_some_lt (cfg : AnalyzerConfig) (now : ℚ) (net tok : String)
    (g : ℚ) (d1 d2 : DexPrice) (opp : Opportunity)
    (hmin : 0 < cfg.minProfitPercentage) (hmax : 0 ≤ cfg.maxTransactionAmount)
    (hs : pairOpportunity cfg now net tok g d1 d2 = some opp) :
    opp.buyPrice < opp.sellPrice := by
  rcases lt_trichotomy d1.price d2.price with h | h | h
  · obtain ⟨h1, h2⟩ := pairOpportunity_some_fields cfg now net tok g d1 d2 opp h hs
    rw [h1, h2]
    exact h
  · rw [pairOpportunity_eq_none cfg now net tok g d1 d2 h hmin hmax] at hs
    cases hs
  · have hlt : ¬(d1.price < d2.price) := not_lt.mpr (le_of_lt h)
    simp only [pairOpportunity, if_neg hlt] at hs
    split_ifs at hs
    · cases hs
      exact h

/-- Every member of the pair-loop output is emitted by some venue pair. -/
theorem mem_pairLoop (cfg : AnalyzerConfig) (now : ℚ) (net tok : String)
    (g : ℚ) (l : List DexPrice) (opp : Opportunity)
    (h : opp ∈ pairLoop cfg now net tok g l) :
    ∃ d1 d2, pairOpportunity cfg now net tok g d1 d2 = some opp := by
  induction l with
  | nil => simp [pairLoop] at h
  | cons d ds ih =>
    have h2 : (∃ a ∈ ds, pairOpportunity cfg now net tok g d a = some opp) ∨
        opp ∈ pairLoop cfg now net tok g ds := by
      simpa [pairLoop] using h
    rcases h2 with ⟨d2, _, hd⟩ | h1
    · exact ⟨d, d2, hd⟩
    · exact ih h1

/-- C4: once the configured minimum profit percentage is positive (and the
maximum transaction amount non-negative), every opportunity the detector
constructs has buyPrice strictly below sellPrice; a pair with the first venue
cheaper emits a candidate buying at the first price and selling at the
second; and a pair with equal prices emits no candidate at all. -/
theorem C4_positive_spread (cfg : AnalyzerConfig) (now : ℚ) (net tok : String)
    (g : ℚ) (prices : List (String × PriceData))
    (hmin : 0 < cfg.minProfitPercentage) (hmax : 0 ≤ cfg.maxTransactionAmount) :
    (∀ opp ∈ analyzeTokenArbitrage cfg now net tok g prices,
      opp.buyPrice < opp.sellPrice) ∧
    (∀ d1 d2 : DexPrice, d1.price < d2.price →
      ∀ opp, pairOpportunity cfg now net tok g d1 d2 = some opp →
        opp.buyPrice = d1.price ∧ opp.sellPrice = d2.price) ∧
    (∀ d1 d2 : DexPrice, d1.price = d2.price →
      pairOpportunity cfg now net tok g d1 d2 = none) := by
  refine ⟨?_, ?_, ?_⟩
  · intro opp hmem
    simp only [analyzeTokenArbitrage] at hmem
    split_ifs at hmem
    · cases hmem
    · obtain ⟨d1, d2, hd⟩ := mem_pairLoop cfg now net tok g _ opp hmem
      exact pairOpportunity_some_lt cfg now net tok g d1 d2 opp hmin hmax hd
  · intro d1 d2 hlt opp hs
    exact pairOpportunity_some_fields cfg now net tok g d1 d2 opp hlt hs
  · intro d1 d2 heq
    exact pairOpportunity_eq_none cfg now net tok g d1 d2 heq hmin hmax

/-- Witness for C4: at the default configuration a concrete equal-price venue
pair produces no candidate. -/
theorem C4_positive_spread_witness :
    pairOpportunity sampleCfgA 0 "polygon" "WETH" (1 / 100)
      ⟨"uniswap", 5, 0⟩ ⟨"quickswap", 5, 0⟩ = none :=
  (C4_positive_spread sampleCfgA 0 "polygon" "WETH" (1 / 100) []
      (by norm_num [sampleCfgA]) (by norm_num [sampleCfgA])).2.2
    ⟨"uniswap", 5, 0⟩ ⟨"quickswap", 5, 0⟩ rfl

/-! ## C8: net profit percentage is monotone in the spread -/

/-- The scaled trade size is monotone in the spread over a fixed buy price. -/
theorem tradeSize_mono (cfg : AnalyzerConfig) (b s1 s2 : ℚ)
    (hb : 0 < b) (hs : s1 ≤ s2) :
    calculateOptimalTradeSize cfg b (b + s1) ≤ calculateOptimalTradeSize cfg b (b + s2) := by
  simp only [calculateOptimalTradeSize, add_sub_cancel_left]
  apply min_le_min _ le_rfl
  apply mul_le_mul_of_nonneg_left _ (by norm_num : (0 : ℚ) ≤ 5 / 100)
  apply min_le_min _ le_rfl
  exact mul_le_mul_of_nonneg_right (div_le_div_of_nonneg_right hs hb.le)
    (by norm_num : (0 : ℚ) ≤ 10)

/-- The scaled trade size is strictly positive for a positive spread. -/
theorem tradeSize_pos (cfg : AnalyzerConfig) (b s : ℚ)
    (hb : 0 < b) (hs : 0 < s) (hmaxTx : 0 < cfg.maxTransactionAmount) :
    0 < calculateOptimalTradeSize cfg b (b + s) := by
  simp only [calculateOptimalTradeSize, add_sub_cancel_left]
  apply lt_min _ hmaxTx
  apply mul_pos (by norm_num : (0 : ℚ) < 5 / 100)
  exact lt_min (mul_pos (div_pos hs hb) (by norm_num)) (by norm_num)

/-- Decomposition of the net profit percentage into a spread term and a gas
term over a non-degenerate trade. -/
theorem netPct_eq (a s g b t : ℚ) (ha : a ≠ 0) (hb : b ≠ 0) :
    (a * s - g - a * s * (t / 100)) / (a * b) * 100
      = s * (100 - t) / b - 100 * g / (a * b) := by
  field_simp
  ring

/-- C8: with the buy price, gas cost, slippage tolerance (at most 100
percent) and the trade-size constants held fixed, the net profit percentage
computed by calculateArbitrageOpportunity is non-decreasing in the spread. -/
theorem C8_netPct_monotone (cfg : AnalyzerConfig) (now : ℚ)
    (net tok bd sd : String) (t1 t2 g b s1 s2 : ℚ)
    (hb : 0 < b) (hg : 0 ≤ g) (hmaxTx : 0 < cfg.maxTransactionAmount)
    (hslip : cfg.slippageTolerance ≤ 100) (hs1 : 0 < s1) (hs : s1 ≤ s2) :
    (calculateArbitrageOpportunity cfg now net tok g
        ⟨bd, b, t1⟩ ⟨sd, b + s1, t2⟩).profitPercentage
      ≤ (calculateArbitrageOpportunity cfg now net tok g
        ⟨bd, b, t1⟩ ⟨sd, b + s2, t2⟩).profitPercentage := by
  have hs2 : 0 < s2 := lt_of_lt_of_le hs1 hs
  have ha1 : 0 < min cfg.maxTransactionAmount (calculateOptimalTradeSize cfg b (b + s1)) :=
    lt_min hmaxTx (tradeSize_pos cfg b s1 hb hs1 hmaxTx)
  have ha2 : 0 < min cfg.maxTransactionAmount (calculateOptimalTradeSize cfg b (b + s2)) :=
    lt_min hmaxTx (tradeSize_pos cfg b s2 hb hs2 hmaxTx)
  have hmono : min cfg.maxTransactionAmount (calculateOptimalTradeSize cfg b (b + s1))
      ≤ min cfg.maxTransactionAmount (calculateOptimalTradeSize cfg b (b + s2)) :=
    min_le_min le_rfl (tradeSize_mono cfg b s1 s2 hb hs)
  simp only [calculateArbitrageOpportunity, add_sub_cancel_left]
  rw [netPct_eq _ s1 g b _ ha1.ne' hb.ne', netPct_eq _ s2 g b _ ha2.ne' hb.ne']
  apply sub_le_sub
  · exact div_le_div_of_nonneg_right
      (mul_le_mul_of_nonneg_right hs (by linarith)) hb.le
  · exact div_le_div_of_nonneg_left (by positivity)
      (by positivity) (mul_le_mul_of_nonneg_right hmono hb.le)

/-- Witness for C8 at the default configuration: widening the spread on a
2000 buy price from 10 to 50 does not decrease the net profit percentage. -/
theorem C8_netPct_monotone_witness :
    (calculateArbitrageOpportunity sampleCfgA 0 "polygon" "WETH" (1 / 100)
        ⟨"uniswap", 2000, 0⟩ ⟨"sushiswap", 2000 + 10, 0⟩).profitPercentage
      ≤ (calculateArbitrageOpportunity sampleCfgA 0 "polygon" "WETH" (1 / 100)
        ⟨"uniswap", 2000, 0⟩ ⟨"sushiswap", 2000 + 50, 0⟩).profitPercentage :=
  C8_netPct_monotone sampleCfgA 0 "polygon" "WETH" "uniswap" "sushiswap" 0 0
    (1 / 100) 2000 10 50 (by norm_num) (by norm_num)
    (by norm_num [sampleCfgA]) (by norm_num [sampleCfgA]) (by norm_num) (by norm_num)

end ArbitrageBot
